import Mathlib

/-!
Verification of the synchronization event dispatcher
(`sfObjectEventDispatcher`, Plugins/SceneFusion/Source/SceneFusion/Private/
sfObjectEventDispatcher.h).

The repository ships only the class header: member declarations with doc
comments, plus the private data members (`m_active`, `m_translatorMap`,
`m_translators`, `m_createQueue`, `m_createSet`, the eleven `ksEvent`
subscription pointers and `m_onObjectModifiedHandle`).  The method bodies live
in a `.cpp` file that is not part of the repository, so every operation below
is modelled from the specification's words, constrained by the header's
declared member types and doc comments.
-/

/-- Modelled from the header: `sfName` is a string-like type-identifier key. -/
abbrev sfName := String

/-- Stable identity of an `sfObject` (usable as a set/map key; the dispatcher
holds only non-owning references, so identity is all we model). -/
abbrev ObjId := Nat

/-- Identity of a translator instance (`TSharedPtr<sfBaseTranslator>` compared
by pointer identity, as `TSet` does). -/
abbrev TranslatorId := Nat

/-- Identity of an `sfProperty`. -/
abbrev PropId := Nat

/-- Identity of a native `UObject` / `UProperty` handle. -/
abbrev NativeId := Nat

/-- The dispatcher state, mirroring the private members of
`sfObjectEventDispatcher` declared in the header:
`m_active`, `m_translatorMap`, `m_translators`, `m_createQueue`,
`m_createSet`, the eleven `ksEvent` subscription members (collapsed into one
`subscribed` flag, since the spec subscribes and unsubscribes them together,
lifecycle-scoped), and `m_onObjectModifiedHandle` (the native-change bridge
toggle, as a boolean listening state). -/
structure DispatcherState where
  active : Bool
  translatorMap : List (sfName × TranslatorId)
  translators : List TranslatorId
  createQueue : List ObjId
  createSet : List ObjId
  subscribed : Bool
  uobjectModifiedEnabled : Bool
  deriving DecidableEq, Repr

/-- The freshly constructed dispatcher: nothing registered, nothing queued,
not listening. -/
def initState : DispatcherState :=
  { active := false
    translatorMap := []
    translators := []
    createQueue := []
    createSet := []
    subscribed := false
    uobjectModifiedEnabled := false }

/-- The external collaborators the dispatcher consults, per the spec's
interface section: each `SyncObject`'s type identifier, each property's owning
object, the native-object to `SyncObject` resolution, each translator's
`Create` handling decision, and the remote session's creation primitive
(whether it accepts a given creation request). -/
structure Env where
  objType : ObjId → sfName
  propOwner : PropId → ObjId
  syncOf : NativeId → Option ObjId
  translatorCreate : TranslatorId → NativeId → Option ObjId
  sessionCreate : ObjId → Bool

/-- Association-list lookup for `m_translatorMap` (`std::unordered_map` keyed
lookup). -/
def lookupTranslator : List (sfName × TranslatorId) → sfName → Option TranslatorId
  | [], _ => none
  | (k, v) :: rest, t => if k = t then some v else lookupTranslator rest t

/-- Keyed insert for `m_translatorMap`.  Modelled from the spec: registering a
second translator for an already-bound identifier replaces the binding (last
write wins). -/
def mapInsert : List (sfName × TranslatorId) → sfName → TranslatorId → List (sfName × TranslatorId)
  | [], t, tr => [(t, tr)]
  | (k, v) :: rest, t, tr =>
    if k = t then (k, tr) :: rest else (k, v) :: mapInsert rest t tr

/-- Identity-set insert for `m_translators`.  Modelled from the spec's design
note: insert into the iteration set only when a translator is first seen. -/
def setInsert (s : List TranslatorId) (tr : TranslatorId) : List TranslatorId :=
  if tr ∈ s then s else s ++ [tr]

/-- Modelled from the spec (the `Register` body is absent from the
repository): binds a type identifier to a translator in `m_translatorMap`
(last write wins) and adds the translator to the deduplicated iteration set
`m_translators`. -/
def Register (s : DispatcherState) (objectType : sfName) (translator : TranslatorId) :
    DispatcherState :=
  { s with
    translatorMap := mapInsert s.translatorMap objectType translator
    translators := setInsert s.translators translator }

/-- `GetTranslator(const sfName&)`: returns the bound translator or the
sentinel none value (`nullptr`); spec: must not fail for unknown types. -/
def GetTranslatorForType (s : DispatcherState) (t : sfName) : Option TranslatorId :=
  lookupTranslator s.translatorMap t

/-- `GetTranslator(sfObject::SPtr)`: resolves the object's type identifier and
looks it up. -/
def GetTranslatorForObject (env : Env) (s : DispatcherState) (o : ObjId) :
    Option TranslatorId :=
  GetTranslatorForType s (env.objType o)

/-- A call the dispatcher makes outward: a lifecycle hook on a translator, a
creation request to the session, or a handler method from the event → handler
table of the spec. -/
inductive Call where
  | initHook (t : TranslatorId)
  | cleanUpHook (t : TranslatorId)
  | createRequest (o : ObjId)
  | onCreate (t : TranslatorId) (o : ObjId) (childIndex : Int)
  | onDelete (t : TranslatorId) (o : ObjId)
  | onLock (t : TranslatorId) (o : ObjId)
  | onUnlock (t : TranslatorId) (o : ObjId)
  | onLockOwnerChange (t : TranslatorId) (o : ObjId)
  | onDirectLockChange (t : TranslatorId) (o : ObjId)
  | onParentChange (t : TranslatorId) (o : ObjId) (childIndex : Int)
  | onPropertyChange (t : TranslatorId) (p : PropId)
  | onRemoveField (t : TranslatorId) (p : PropId) (field : sfName)
  | onListAdd (t : TranslatorId) (p : PropId) (index count : Int)
  | onListRemove (t : TranslatorId) (p : PropId) (index count : Int)
  | onUPropertyChange (t : TranslatorId) (o : Option ObjId) (uobj uprop : NativeId)
  | postPropertyChange (t : TranslatorId) (uobj uprop : NativeId)
  | onUndoRedo (t : TranslatorId) (o : Option ObjId) (uobj : NativeId)
  deriving DecidableEq, Repr

/-- Modelled from the spec (body absent): `Initialize` starts listening for
events (subscribes the session event channels, activates the dispatcher) and
calls the initialization hook on every distinct registered translator exactly
once, by iterating the deduplicated set `m_translators`.  Returns the state
and the trace of hook calls. -/
def Initialize (s : DispatcherState) : DispatcherState × List Call :=
  ({ s with active := true, subscribed := true },
   s.translators.map Call.initHook)

/-- Modelled from the spec (body absent): `CleanUp` stops listening
(unsubscribes all event channels including the native-modification delegate),
deactivates the dispatcher, clears the creation queue and dedup set so a
subsequent `Initialize` starts clean, and calls the clean-up hook on every
distinct registered translator exactly once via `m_translators`. -/
def CleanUp (s : DispatcherState) : DispatcherState × List Call :=
  ({ s with
     active := false
     subscribed := false
     uobjectModifiedEnabled := false
     createQueue := []
     createSet := [] },
   s.translators.map Call.cleanUpHook)

/-- `IsCreateQueued`: O(1) membership test against the dedup set
`m_createSet`. -/
def IsCreateQueued (s : DispatcherState) (o : ObjId) : Bool :=
  decide (o ∈ s.createSet)

/-- Modelled from the spec (body absent): `QueueCreate` appends to the FIFO
`m_createQueue` and adds to `m_createSet`; a second call with the same object
before processing is detected against the set and skipped, so the entry is
not duplicated. -/
def QueueCreate (s : DispatcherState) (o : ObjId) : DispatcherState :=
  if o ∈ s.createSet then s
  else { s with createQueue := s.createQueue ++ [o], createSet := o :: s.createSet }

/-- One pass over the drained FIFO entries, front first: every dequeued entry
yields one creation request to the session; an entry whose creation the
session rejects is dropped while the drain continues with the rest.  Returns
(requests issued in order, objects successfully created in order). -/
def processEntries (env : Env) : List ObjId → List ObjId × List ObjId
  | [] => ([], [])
  | o :: rest =>
    let tail := processEntries env rest
    (o :: tail.1, if env.sessionCreate o then o :: tail.2 else tail.2)

/-- Modelled from the spec (body absent): `ProcessCreateQueue` drains the
FIFO strictly in order, removing each entry from the dedup set as it is
dequeued, and issues one creation request per drained entry; a per-entry
failure drops only that entry.  Returns the state after the drain, the
creation requests issued in order, and the successfully created objects. -/
def ProcessCreateQueue (env : Env) (s : DispatcherState) :
    DispatcherState × List ObjId × List ObjId :=
  let out := processEntries env s.createQueue
  ({ s with createQueue := [], createSet := [] }, out.1, out.2)

/-- An inbound event from the remote session, one constructor per `ksEvent`
channel declared in the header. -/
inductive SessionEvent where
  | created (o : ObjId) (childIndex : Int)
  | deleted (o : ObjId)
  | locked (o : ObjId)
  | unlocked (o : ObjId)
  | lockOwnerChanged (o : ObjId)
  | directLockChanged (o : ObjId)
  | parentChanged (o : ObjId) (childIndex : Int)
  | propertyChanged (p : PropId)
  | fieldRemoved (p : PropId) (field : sfName)
  | listAdded (p : PropId) (index count : Int)
  | listRemoved (p : PropId) (index count : Int)
  deriving DecidableEq, Repr

/-- The SyncObject responsible for an event: the event's own object, or for
property events the property's owning object (spec: routed via the property's
owning object). -/
def eventOwner (env : Env) : SessionEvent → ObjId
  | .created o _ => o
  | .deleted o => o
  | .locked o => o
  | .unlocked o => o
  | .lockOwnerChanged o => o
  | .directLockChanged o => o
  | .parentChanged o _ => o
  | .propertyChanged p => env.propOwner p
  | .fieldRemoved p _ => env.propOwner p
  | .listAdded p _ _ => env.propOwner p
  | .listRemoved p _ _ => env.propOwner p

/-- The handler invocation matching an event kind, per the event → handler
table of the spec. -/
def handlerCall (t : TranslatorId) : SessionEvent → Call
  | .created o i => .onCreate t o i
  | .deleted o => .onDelete t o
  | .locked o => .onLock t o
  | .unlocked o => .onUnlock t o
  | .lockOwnerChanged o => .onLockOwnerChange t o
  | .directLockChanged o => .onDirectLockChange t o
  | .parentChanged o i => .onParentChange t o i
  | .propertyChanged p => .onPropertyChange t p
  | .fieldRemoved p f => .onRemoveField t p f
  | .listAdded p i c => .onListAdd t p i c
  | .listRemoved p i c => .onListRemove t p i c

/-- Modelled from the spec (dispatch-router bodies absent): an event fired on
a session channel reaches a handler only while the dispatcher is subscribed;
the router resolves the owning object's type, looks up its translator, and
invokes the matching handler, or does nothing at all (silent no-op) when the
type is unregistered. -/
def DispatchEvent (env : Env) (s : DispatcherState) (e : SessionEvent) : List Call :=
  if s.subscribed then
    match GetTranslatorForObject env s (eventOwner env e) with
    | none => []
    | some t => [handlerCall t e]
  else []

/-- `EnableOnUObjectModified`: the native-change bridge enters the listening
state (idempotent: enabling twice has the effect of enabling once). -/
def EnableOnUObjectModified (s : DispatcherState) : DispatcherState :=
  { s with uobjectModifiedEnabled := true }

/-- `DisableOnUObjectModified`: the native-change bridge enters the
suppressed state. -/
def DisableOnUObjectModified (s : DispatcherState) : DispatcherState :=
  { s with uobjectModifiedEnabled := false }

/-- Modelled from the spec (bridge body absent): a native mutation
notification for `uobj`.  While listening, it is converted into
`OnUPropertyChange` (pre-image) and, once the host commits, `PostPropertyChange`
(post-image) on the owning object's translator; while suppressed it is
dropped — not queued — producing no call and leaving the state unchanged. -/
def OnNativeMutation (env : Env) (s : DispatcherState) (uobj uprop : NativeId) :
    DispatcherState × List Call :=
  if s.uobjectModifiedEnabled then
    match env.syncOf uobj with
    | none => (s, [])
    | some o =>
      match GetTranslatorForObject env s o with
      | none => (s, [])
      | some t =>
        (s, [Call.onUPropertyChange t (some o) uobj uprop,
             Call.postPropertyChange t uobj uprop])
  else (s, [])

/-- First-translator-wins fold for `Create`: ask each translator in iteration
order until one handles the request. -/
def createFrom (env : Env) (uobj : NativeId) : List TranslatorId → Option ObjId
  | [] => none
  | t :: rest =>
    match env.translatorCreate t uobj with
    | some o => some o
    | none => createFrom env uobj rest

/-- Modelled from the header doc comment (body absent): `Create` makes an
sfObject for a uobject by calling Create on each translator until one of them
handles the request; may return the none sentinel (`nullptr`). -/
def Create (env : Env) (s : DispatcherState) (uobj : NativeId) : Option ObjId :=
  createFrom env uobj s.translators

/-- The lock-step invariant between `m_createQueue` and `m_createSet`: an
object in the dedup set appears exactly once in the queue, and an object not
in the set does not appear at all. -/
def QueueInv (s : DispatcherState) : Prop :=
  ∀ o : ObjId, s.createQueue.count o = if o ∈ s.createSet then 1 else 0

/-- The distinct elements of a list in order of first occurrence, accumulating
the elements already seen. -/
def firstOccurAux (seen : List ObjId) : List ObjId → List ObjId
  | [] => []
  | o :: rest =>
    if o ∈ seen then firstOccurAux seen rest
    else o :: firstOccurAux (o :: seen) rest

/-- The distinct elements of a list in order of first occurrence. -/
def firstOccur (os : List ObjId) : List ObjId :=
  firstOccurAux [] os

/-- A concrete external environment for witnesses: no object synchronized
natively, no translator handles creation, the session accepts everything,
every object of type Foo. -/
def env0 : Env :=
  { objType := fun _ => "Foo"
    propOwner := fun _ => 0
    syncOf := fun _ => none
    translatorCreate := fun _ _ => none
    sessionCreate := fun _ => true }

/-- A concrete environment where the session rejects creation of object 1 and
accepts everything else. -/
def env2 : Env :=
  { env0 with sessionCreate := fun o => decide (o ≠ 1) }

/-- A concrete environment where exactly translator 1 handles `Create`,
producing object `uobj + 5`. -/
def env3 : Env :=
  { env0 with
    translatorCreate := fun t uobj => if t = 1 then some (uobj + 5) else none }

/-- A sequence of `Register` calls applied in order. -/
def applyRegs (s : DispatcherState) (regs : List (sfName × TranslatorId)) : DispatcherState :=
  regs.foldl (fun acc r => Register acc r.1 r.2) s

theorem lookupTranslator_mapInsert_self (m : List (sfName × TranslatorId)) (t : sfName)
    (tr : TranslatorId) : lookupTranslator (mapInsert m t tr) t = some tr := by
  induction m with
  | nil => simp [mapInsert, lookupTranslator]
  | cons kv rest ih =>
    obtain ⟨k, v⟩ := kv
    by_cases h : k = t
    · simp [mapInsert, lookupTranslator, h]
    · simp [mapInsert, lookupTranslator, h, ih]

theorem lookupTranslator_mapInsert_ne (m : List (sfName × TranslatorId)) (k t : sfName)
    (tr : TranslatorId) (h : k ≠ t) :
    lookupTranslator (mapInsert m k tr) t = lookupTranslator m t := by
  induction m with
  | nil => simp [mapInsert, lookupTranslator, h]
  | cons kv rest ih =>
    obtain ⟨k', v⟩ := kv
    by_cases hk : k' = k
    · subst hk
      simp [mapInsert, lookupTranslator, h]
    · simp [mapInsert, lookupTranslator, hk, ih]

theorem lookupTranslator_applyRegs_none (regs : List (sfName × TranslatorId))
    (ty : sfName) (hregs : ∀ r ∈ regs, r.1 ≠ ty) :
    ∀ s : DispatcherState, lookupTranslator s.translatorMap ty = none →
      lookupTranslator (applyRegs s regs).translatorMap ty = none := by
  induction regs with
  | nil => intro s hs; simpa [applyRegs] using hs
  | cons r rest ih =>
    intro s hs
    have hr : r.1 ≠ ty := hregs r (List.mem_cons_self r rest)
    have hrest : ∀ r' ∈ rest, r'.1 ≠ ty := fun r' hr' =>
      hregs r' (List.mem_cons_of_mem r hr')
    have : lookupTranslator (Register s r.1 r.2).translatorMap ty = none := by
      simpa [Register, lookupTranslator_mapInsert_ne _ _ _ _ hr] using hs
    simpa [applyRegs] using ih hrest (Register s r.1 r.2) this

theorem processEntries_fst (env : Env) (l : List ObjId) :
    (processEntries env l).1 = l := by
  induction l with
  | nil => simp [processEntries]
  | cons o rest ih => simp [processEntries, ih]

theorem processEntries_snd (env : Env) (l : List ObjId) :
    (processEntries env l).2 = l.filter (fun o => env.sessionCreate o) := by
  induction l with
  | nil => simp [processEntries]
  | cons o rest ih =>
    by_cases h : env.sessionCreate o <;> simp [processEntries, ih, List.filter_cons, h]

theorem queueInv_initState : QueueInv initState := by
  intro o
  simp [QueueInv, initState]

theorem queueInv_queueCreate (s : DispatcherState) (o : ObjId) (h : QueueInv s) :
    QueueInv (QueueCreate s o) := by
  intro x
  by_cases ho : o ∈ s.createSet
  · simpa [QueueCreate, ho] using h x
  · by_cases hx : x = o
    · subst hx
      have hz : s.createQueue.count x = 0 := by simpa [ho] using h x
      simp [QueueCreate, ho, List.count_append, hz]
    · have := h x
      simp only [QueueCreate, if_neg ho]
      simpa [List.count_append, hx, List.mem_cons] using this

theorem count_queueCreate_self (s : DispatcherState) (o : ObjId) (h : QueueInv s) :
    (QueueCreate s o).createQueue.count o = 1 := by
  have h' := queueInv_queueCreate s o h o
  have hmem : o ∈ (QueueCreate s o).createSet := by
    by_cases ho : o ∈ s.createSet <;> simp [QueueCreate, ho]
  simpa [hmem] using h'

theorem queueCreate_mem_noop (s : DispatcherState) (o : ObjId)
    (h : o ∈ s.createSet) : QueueCreate s o = s := by
  simp [QueueCreate, h]

theorem mem_setInsert_self (l : List TranslatorId) (t : TranslatorId) :
    t ∈ setInsert l t := by
  by_cases h : t ∈ l <;> simp [setInsert, h]

theorem mem_setInsert_of_mem (l : List TranslatorId) (t t' : TranslatorId)
    (h : t ∈ l) : t ∈ setInsert l t' := by
  by_cases h' : t' ∈ l <;> simp [setInsert, h', h]

theorem nodup_setInsert (l : List TranslatorId) (t : TranslatorId)
    (h : l.Nodup) : (setInsert l t).Nodup := by
  by_cases ht : t ∈ l
  · simpa [setInsert, ht] using h
  · simp only [setInsert, if_neg ht]
    refine List.Nodup.append h (List.nodup_singleton t) ?_
    intro a ha hat
    exact ht ((List.mem_singleton.mp hat) ▸ ha)

theorem setInsert_mem_eq (l : List TranslatorId) (t : TranslatorId)
    (h : t ∈ l) : setInsert l t = l := by
  simp [setInsert, h]

theorem foldl_queueCreate_createQueue (os : List ObjId) :
    ∀ s : DispatcherState,
      (os.foldl QueueCreate s).createQueue = s.createQueue ++ firstOccurAux s.createSet os := by
  induction os with
  | nil => intro s; simp [firstOccurAux]
  | cons o rest ih =>
    intro s
    by_cases ho : o ∈ s.createSet
    · simp [List.foldl_cons, queueCreate_mem_noop s o ho, firstOccurAux, ho, ih s]
    · have hq : (QueueCreate s o).createQueue = s.createQueue ++ [o] := by
        simp [QueueCreate, ho]
      have hset : (QueueCreate s o).createSet = o :: s.createSet := by
        simp [QueueCreate, ho]
      simp only [List.foldl_cons, firstOccurAux, if_neg ho]
      rw [ih (QueueCreate s o), hq, hset, List.append_assoc, List.singleton_append]

theorem createFrom_none (env : Env) (uobj : NativeId) (ts : List TranslatorId)
    (hall : ∀ t ∈ ts, env.translatorCreate t uobj = none) :
    createFrom env uobj ts = none := by
  induction ts with
  | nil => rfl
  | cons t rest ih =>
    have ht := hall t (List.mem_cons_self t rest)
    simp only [createFrom, ht]
    exact ih (fun t' h' => hall t' (List.mem_cons_of_mem t h'))

theorem createFrom_first (env : Env) (uobj : NativeId) (ts1 : List TranslatorId)
    (t : TranslatorId) (ts2 : List TranslatorId) (o : ObjId)
    (h1 : ∀ t' ∈ ts1, env.translatorCreate t' uobj = none)
    (ht : env.translatorCreate t uobj = some o) :
    createFrom env uobj (ts1 ++ t :: ts2) = some o := by
  induction ts1 with
  | nil => simp [createFrom, ht]
  | cons a rest ih =>
    have ha := h1 a (List.mem_cons_self a rest)
    simp only [List.cons_append, createFrom, ha]
    exact ih (fun t' h' => h1 t' (List.mem_cons_of_mem a h'))

/-- C1: calling `QueueCreate o` twice before processing issues exactly one
creation request for `o` during `ProcessCreateQueue`: in any state satisfying
the queue/dedup-set lock-step invariant, the second call does not duplicate
the entry, so the drained request list mentions `o` exactly once. -/
theorem queueCreate_twice_single_request (env : Env) (s : DispatcherState) (o : ObjId)
    (h : QueueInv s) :
    ((ProcessCreateQueue env (QueueCreate (QueueCreate s o) o)).2.1).count o = 1 := by
  have hmem : o ∈ (QueueCreate s o).createSet := by
    by_cases ho : o ∈ s.createSet <;> simp [QueueCreate, ho]
  rw [queueCreate_mem_noop _ o hmem]
  have hc := count_queueCreate_self s o h
  simpa [ProcessCreateQueue, processEntries_fst] using hc

/-- Witness for C1: the fresh dispatcher and object 0. -/
theorem queueCreate_twice_single_request_witness :
    ((ProcessCreateQueue env0 (QueueCreate (QueueCreate initState 0) 0)).2.1).count 0 = 1 :=
  queueCreate_twice_single_request env0 initState 0 (by intro o; simp [QueueInv, initState])

/-- C2: `IsCreateQueued o` is true immediately after `QueueCreate o`, and
false immediately after `ProcessCreateQueue` (which drains every queued
object, `o` included, clearing the dedup set). -/
theorem isCreateQueued_after_queue_and_process (env : Env) (s : DispatcherState) (o : ObjId) :
    IsCreateQueued (QueueCreate s o) o = true ∧
    IsCreateQueued (ProcessCreateQueue env s).1 o = false := by
  constructor
  · by_cases ho : o ∈ s.createSet <;> simp [IsCreateQueued, QueueCreate, ho]
  · simp [IsCreateQueued, ProcessCreateQueue]

/-- C3: a translator registered under two distinct type identifiers receives
its initialization hook exactly once from `Initialize` and its clean-up hook
exactly once from `CleanUp` — once per distinct translator, not once per
identifier it is bound under. -/
theorem lifecycle_hooks_once_per_translator (s : DispatcherState) (n1 n2 : sfName)
    (t : TranslatorId) (_hn : n1 ≠ n2) (hnd : s.translators.Nodup) :
    (Initialize (Register (Register s n1 t) n2 t)).2.count (Call.initHook t) = 1 ∧
    (CleanUp (Register (Register s n1 t) n2 t)).2.count (Call.cleanUpHook t) = 1 := by
  have htrans : (Register (Register s n1 t) n2 t).translators = setInsert s.translators t := by
    simp [Register, setInsert_mem_eq _ t (mem_setInsert_self _ t)]
  have hmem : t ∈ (Register (Register s n1 t) n2 t).translators := by
    rw [htrans]; exact mem_setInsert_self _ t
  have hnd2 : (Register (Register s n1 t) n2 t).translators.Nodup := by
    rw [htrans]; exact nodup_setInsert _ t hnd
  have hcount := List.count_eq_one_of_mem hnd2 hmem
  constructor
  · have hinj : Function.Injective Call.initHook := by
      intro a b hab; injection hab
    simpa [Initialize, List.count_map_of_injective _ Call.initHook hinj] using hcount
  · have hinj : Function.Injective Call.cleanUpHook := by
      intro a b hab; injection hab
    simpa [CleanUp, List.count_map_of_injective _ Call.cleanUpHook hinj] using hcount

/-- Witness for C3: one translator registered under both Mesh and StaticMesh,
starting from the fresh dispatcher. -/
theorem lifecycle_hooks_once_per_translator_witness :
    (Initialize (Register (Register initState "Mesh" 0) "StaticMesh" 0)).2.count
      (Call.initHook 0) = 1 ∧
    (CleanUp (Register (Register initState "Mesh" 0) "StaticMesh" 0)).2.count
      (Call.cleanUpHook 0) = 1 :=
  lifecycle_hooks_once_per_translator initState "Mesh" "StaticMesh" 0
    (by simp) (by simp [initState])

/-- C4: `GetTranslator` returns the none sentinel for a type identifier never
passed to `Register`, and dispatching an event owned by an object of that
type, even on the initialized (subscribed) dispatcher, invokes no translator
method: a silent no-op. -/
theorem getTranslator_unregistered_none (env : Env) (regs : List (sfName × TranslatorId))
    (ty : sfName) (e : SessionEvent)
    (hregs : ∀ r ∈ regs, r.1 ≠ ty)
    (howner : env.objType (eventOwner env e) = ty) :
    GetTranslatorForType (applyRegs initState regs) ty = none ∧
    DispatchEvent env (Initialize (applyRegs initState regs)).1 e = [] := by
  have hnone : lookupTranslator (applyRegs initState regs).translatorMap ty = none :=
    lookupTranslator_applyRegs_none regs ty hregs initState (by simp [initState, lookupTranslator])
  refine ⟨hnone, ?_⟩
  simp [DispatchEvent, Initialize, GetTranslatorForObject, GetTranslatorForType, howner, hnone]

/-- Witness for C4: only Mesh is registered; type Foo is unknown, and a
property-change event for a Foo-typed object dispatches nothing. -/
theorem getTranslator_unregistered_none_witness :
    GetTranslatorForType (applyRegs initState [("Mesh", 0)]) "Foo" = none ∧
    DispatchEvent env0 (Initialize (applyRegs initState [("Mesh", 0)])).1
      (SessionEvent.propertyChanged 0) = [] :=
  getTranslator_unregistered_none env0 [("Mesh", 0)] "Foo" (SessionEvent.propertyChanged 0)
    (by intro r hr; rw [List.mem_singleton.mp hr]; simp) rfl

/-- C5: registering a second translator under an already-bound type
identifier replaces the binding — `GetTranslator` afterwards returns the
translator registered last. -/
theorem register_last_write_wins (s : DispatcherState) (ty : sfName) (t1 t2 : TranslatorId) :
    GetTranslatorForType (Register (Register s ty t1) ty t2) ty = some t2 := by
  simp [GetTranslatorForType, Register, lookupTranslator_mapInsert_self]

/-- C6: while the native-change bridge is suppressed (its listening flag off,
as it is after `DisableOnUObjectModified`), a native mutation notification is
dropped, not queued: it produces no `OnUPropertyChange` or
`PostPropertyChange` call and leaves the dispatcher state unchanged. -/
theorem suppressed_native_mutation_dropped (env : Env) (s : DispatcherState)
    (uobj uprop : NativeId) (h : s.uobjectModifiedEnabled = false) :
    OnNativeMutation env s uobj uprop = (s, []) := by
  simp [OnNativeMutation, h]

/-- Witness for C6: the state right after `DisableOnUObjectModified`. -/
theorem suppressed_native_mutation_dropped_witness :
    OnNativeMutation env0 (DisableOnUObjectModified initState) 0 0
      = (DisableOnUObjectModified initState, []) :=
  suppressed_native_mutation_dropped env0 (DisableOnUObjectModified initState) 0 0 rfl

/-- C7: after `CleanUp`, every subscription is gone — a session event or a
native mutation fired before the next `Initialize` reaches no handler — and
that next `Initialize` observes an empty creation queue and dedup set. -/
theorem cleanUp_resets_and_unsubscribes (env : Env) (s : DispatcherState)
    (e : SessionEvent) (uobj uprop : NativeId) :
    DispatchEvent env (CleanUp s).1 e = [] ∧
    OnNativeMutation env (CleanUp s).1 uobj uprop = ((CleanUp s).1, []) ∧
    (Initialize (CleanUp s).1).1.createQueue = [] ∧
    (Initialize (CleanUp s).1).1.createSet = [] := by
  refine ⟨?_, ?_, ?_, ?_⟩ <;> simp [DispatchEvent, OnNativeMutation, CleanUp, Initialize]

/-- C8: `ProcessCreateQueue` drains strictly in FIFO enqueue order — after any
sequence of `QueueCreate` calls on a fresh dispatcher, the creation requests
issued are exactly the distinct objects in order of first enqueue, with no
reordering by the dispatcher. -/
theorem processCreateQueue_fifo_order (env : Env) (os : List ObjId) :
    (ProcessCreateQueue env (os.foldl QueueCreate initState)).2.1 = firstOccur os := by
  have hq := foldl_queueCreate_createQueue os initState
  simp only [ProcessCreateQueue, processEntries_fst]
  rw [hq]
  simp [initState, firstOccur]

/-- C9: a per-entry creation failure during `ProcessCreateQueue` is isolated:
every queued entry is still issued a creation request, an entry whose own
creation succeeds is still created, and only the failing entry is dropped. -/
theorem per_entry_failure_isolated (env : Env) (s : DispatcherState) (o o' : ObjId)
    (ho : o ∈ s.createQueue) (ho' : o' ∈ s.createQueue)
    (hok : env.sessionCreate o = true) (hfail : env.sessionCreate o' = false) :
    o ∈ (ProcessCreateQueue env s).2.1 ∧ o' ∈ (ProcessCreateQueue env s).2.1 ∧
    o ∈ (ProcessCreateQueue env s).2.2 ∧ o' ∉ (ProcessCreateQueue env s).2.2 := by
  refine ⟨?_, ?_, ?_, ?_⟩ <;>
    simp [ProcessCreateQueue, processEntries_fst, processEntries_snd, List.mem_filter,
      ho, ho', hok, hfail]

/-- Witness for C9: objects 0 and 1 queued; the session rejects creating 1. -/
theorem per_entry_failure_isolated_witness :
    0 ∈ (ProcessCreateQueue env2 (QueueCreate (QueueCreate initState 0) 1)).2.1 ∧
    1 ∈ (ProcessCreateQueue env2 (QueueCreate (QueueCreate initState 0) 1)).2.1 ∧
    0 ∈ (ProcessCreateQueue env2 (QueueCreate (QueueCreate initState 0) 1)).2.2 ∧
    1 ∉ (ProcessCreateQueue env2 (QueueCreate (QueueCreate initState 0) 1)).2.2 :=
  per_entry_failure_isolated env2 (QueueCreate (QueueCreate initState 0) 1) 0 1
    (by decide) (by decide) (by decide) (by decide)

/-- C10: `Create` asks each registered translator in iteration order until one
handles the request and returns that translator's result; when no registered
translator handles it, `Create` returns the none sentinel (`nullptr`) rather
than failing. -/
theorem create_first_translator_wins (env : Env) (s : DispatcherState) (uobj : NativeId) :
    ((∀ t ∈ s.translators, env.translatorCreate t uobj = none) →
       Create env s uobj = none) ∧
    (∀ ts1 t ts2 o, s.translators = ts1 ++ t :: ts2 →
       (∀ t' ∈ ts1, env.translatorCreate t' uobj = none) →
       env.translatorCreate t uobj = some o →
       Create env s uobj = some o) := by
  constructor
  · intro hall
    exact createFrom_none env uobj s.translators hall
  · intro ts1 t ts2 o hsplit h1 ht
    unfold Create
    rw [hsplit]
    exact createFrom_first env uobj ts1 t ts2 o h1 ht

/-- Witness for C10: translators 0 and 1 registered; translator 0 declines,
translator 1 handles uobject 7 producing object 12; under an environment
where nobody handles it, the result is the none sentinel. -/
theorem create_first_translator_wins_witness :
    Create env3 (Register (Register initState "A" 0) "B" 1) 7 = some 12 ∧
    Create env0 (Register (Register initState "A" 0) "B" 1) 7 = none :=
  ⟨(create_first_translator_wins env3 (Register (Register initState "A" 0) "B" 1) 7).2
      [0] 1 [] 12 (by decide) (by decide) rfl,
   (create_first_translator_wins env0 (Register (Register initState "A" 0) "B" 1) 7).1
      (by decide)⟩
